import Mathlib

/-!
Shallow embedding of the forge_platform control-register simulation layer:
`network_cr.py` (ControlRegisterBank, NetworkCRInterface),
`simulators/cloud_compile.py` (CloudCompileSimulator),
`simulation_backend.py` (SimulationBackend.set_control_register), and
`simulators/oscilloscope.py` (OscilloscopeSimulator capture loop and
verify_incrementing).

Modelling conventions:
- Python ints are unbounded, so values are `Nat` (all written values in the
  code are non-negative) and register indices are `Int` (the guards test
  `reg < 0 or reg > 15`).
- Python dicts keyed by int are total/partial functions: `Int → Nat` for a
  register file whose guarded accesses stay in the initialised domain
  0..15, `Int → Option _` for dicts where absence is observable.
- Raising an exception is `Except.error`; awaited cocotb Timers only
  advance simulation time, which is not part of the register state, so a
  delay argument has no further effect in the embedding.
-/

/-- One entry of a control-register bank's access log
(`ControlRegisterBank.set_register` in network_cr.py). The wall-clock
timestamp and the constant tag 'write' carry no register semantics and
are omitted. -/
structure AccessEntry where
  register : Int
  old_value : Nat
  new_value : Nat
  deriving DecidableEq

/-- State of `ControlRegisterBank` (network_cr.py). The Python `registers`
dict is initialised to `{i: 0 for i in range(16)}` and only ever written at
guarded in-range keys, so it is modelled as a total function. -/
structure ControlRegisterBank where
  slot : Int
  registers : Int → Nat
  access_log : List AccessEntry

/-- The dataclass defaults: all sixteen registers 0, empty access log. -/
def ControlRegisterBank.init (slot : Int) : ControlRegisterBank :=
  { slot := slot, registers := fun _ => 0, access_log := [] }

/-- `ControlRegisterBank.set_register`: guard the index, store the value
masked to 32 bits, and append a log entry recording the raw (unmasked)
`new_value`. -/
def ControlRegisterBank.set_register (bank : ControlRegisterBank) (reg : Int) (value : Nat) :
    Except String ControlRegisterBank :=
  if reg < 0 ∨ reg > 15 then
    Except.error "Register out of range (0-15)"
  else
    Except.ok { bank with
      registers := Function.update bank.registers reg (value &&& 0xFFFFFFFF),
      access_log := bank.access_log ++
        [{ register := reg, old_value := bank.registers reg, new_value := value }] }

/-- `ControlRegisterBank.get_register`. -/
def ControlRegisterBank.get_register (bank : ControlRegisterBank) (reg : Int) :
    Except String Nat :=
  if reg < 0 ∨ reg > 15 then
    Except.error "Register out of range (0-15)"
  else
    Except.ok (bank.registers reg)

/-- Result type of `ControlRegisterBank.get_forge_control_bits`. -/
structure ForgeBits where
  forge_ready : Bool
  user_enable : Bool
  clk_enable : Bool
  deriving DecidableEq

/-- `ControlRegisterBank.get_forge_control_bits`: decode CR0 bits 31/30/29. -/
def ControlRegisterBank.get_forge_control_bits (bank : ControlRegisterBank) : ForgeBits :=
  let cr0 := bank.registers 0
  { forge_ready := cr0.testBit 31
    user_enable := cr0.testBit 30
    clk_enable := cr0.testBit 29 }

/-- State of `NetworkCRInterface` (network_cr.py). -/
structure NetworkCRInterface where
  default_delay_ms : Nat
  slots : Int → Option ControlRegisterBank
  network_busy : Bool
  total_network_ops : Nat

/-- `NetworkCRInterface.__init__` with the default 200 ms delay. -/
def NetworkCRInterface.init : NetworkCRInterface :=
  { default_delay_ms := 200, slots := fun _ => none
    network_busy := false, total_network_ops := 0 }

/-- `NetworkCRInterface.add_slot`: install a fresh bank, then write each
pair of `initial_values` through `set_register` (which masks, logs, and can
raise on an out-of-range key). -/
def NetworkCRInterface.add_slot (σ : NetworkCRInterface) (slot : Int)
    (initial_values : List (Int × Nat)) : Except String NetworkCRInterface :=
  let σ1 : NetworkCRInterface :=
    { σ with slots := Function.update σ.slots slot (some (ControlRegisterBank.init slot)) }
  initial_values.foldlM (fun τ rv =>
    match τ.slots slot with
    | some bank => do
        let bank' ← bank.set_register rv.1 rv.2
        Except.ok { τ with slots := Function.update τ.slots slot (some bank') }
    | none => Except.error "Slot not configured") σ1

/-- `NetworkCRInterface.set_control_register`: unknown slot raises; otherwise
mark the network busy, count the operation, await the delay (time only), and
perform the single atomic `set_register` update on the slot's bank. -/
def NetworkCRInterface.set_control_register (σ : NetworkCRInterface) (slot register : Int)
    (value : Nat) (_delay_ms : Option Nat) : Except String NetworkCRInterface :=
  match σ.slots slot with
  | none => Except.error "Slot not configured"
  | some bank =>
      let σ1 : NetworkCRInterface :=
        { σ with network_busy := true, total_network_ops := σ.total_network_ops + 1 }
      do
        let bank' ← bank.set_register register value
        Except.ok { σ1 with
          slots := Function.update σ1.slots slot (some bank')
          network_busy := false }

/-- `NetworkCRInterface.get_control_register`: unknown slot raises; reads are
instant and delegate to the bank. -/
def NetworkCRInterface.get_control_register (σ : NetworkCRInterface) (slot register : Int) :
    Except String Nat :=
  match σ.slots slot with
  | none => Except.error "Slot not configured"
  | some bank => bank.get_register register

/-- Result type of `NetworkCRInterface.get_forge_status`. -/
structure ForgeStatus where
  forge_ready : Bool
  user_enable : Bool
  clk_enable : Bool
  global_enable : Bool
  deriving DecidableEq

/-- `NetworkCRInterface.get_forge_status`: an unknown slot yields the
all-false default dictionary (no exception); otherwise decode the bank's
CR0 bits and derive `global_enable` as their conjunction (loader_done is
internal to the FPGA and takes no part). -/
def NetworkCRInterface.get_forge_status (σ : NetworkCRInterface) (slot : Int) : ForgeStatus :=
  match σ.slots slot with
  | none =>
      { forge_ready := false, user_enable := false
        clk_enable := false, global_enable := false }
  | some bank =>
      let bits := bank.get_forge_control_bits
      { forge_ready := bits.forge_ready
        user_enable := bits.user_enable
        clk_enable := bits.clk_enable
        global_enable := bits.forge_ready && bits.user_enable && bits.clk_enable }

/-- `NetworkCRInterface.get_access_log`: an unknown slot yields the empty
list (no exception). -/
def NetworkCRInterface.get_access_log (σ : NetworkCRInterface) (slot : Int) :
    List AccessEntry :=
  match σ.slots slot with
  | none => []
  | some bank => bank.access_log

/-- FORGE control state tracked by `CloudCompileSimulator`. -/
structure ForgeState where
  forge_ready : Bool
  user_enable : Bool
  clk_enable : Bool
  loader_done : Bool
  deriving DecidableEq

/-- The cocotb DUT handle as seen by `CloudCompileSimulator`:
`hasControl n` models `hasattr(dut, f'Control{n}')`, `control` the values
currently driven on those ports, `hasStatus n` models
`hasattr(dut, f'Status{n}')`, and `statusRead n = none` models
`int(getattr(dut, f'Status{n}').value)` raising. -/
structure Dut where
  hasControl : Int → Bool
  control : Int → Nat
  hasStatus : Nat → Bool
  statusRead : Nat → Option Int

/-- State of `CloudCompileSimulator` (simulators/cloud_compile.py); the two
register dicts can have arbitrary key sets, so they are partial maps. -/
structure CloudCompileSimulator where
  dut : Dut
  control_registers : Int → Option Nat
  applied_crs : Int → Option Nat
  forge_state : ForgeState

/-- `CloudCompileSimulator._update_forge_state`: refresh the three CR0-derived
flags, leaving `loader_done` untouched. -/
def CloudCompileSimulator.update_forge_state (fs : ForgeState) (cr0_value : Nat) : ForgeState :=
  { fs with
    forge_ready := cr0_value.testBit 31
    user_enable := cr0_value.testBit 30
    clk_enable := cr0_value.testBit 29 }

/-- `CloudCompileSimulator.set_control_register`: guard the index; when the
DUT exposes `Control<register>` drive it, record the raw value in both
`applied_crs` and `control_registers`, and refresh the FORGE state for
register 0; when the port is absent the call is a silent no-op. -/
def CloudCompileSimulator.set_control_register (sim : CloudCompileSimulator)
    (register : Int) (value : Nat) : Except String CloudCompileSimulator :=
  if register < 0 ∨ register > 15 then
    Except.error "Register out of range (0-15)"
  else if sim.dut.hasControl register then
    Except.ok { sim with
      dut := { sim.dut with control := Function.update sim.dut.control register value }
      applied_crs := Function.update sim.applied_crs register (some value)
      control_registers := Function.update sim.control_registers register (some value)
      forge_state :=
        if register = 0 then
          CloudCompileSimulator.update_forge_state sim.forge_state value
        else sim.forge_state }
  else
    Except.ok sim

/-- `CloudCompileSimulator.get_control_register`: dict lookup with default 0. -/
def CloudCompileSimulator.get_control_register (sim : CloudCompileSimulator)
    (register : Int) : Nat :=
  (sim.control_registers register).getD 0

/-- `CloudCompileSimulator.get_status_registers`: iterate registers 0..15,
skipping registers the DUT does not expose, and substituting 0 when reading
an exposed register raises. The result is the built dict. -/
def CloudCompileSimulator.get_status_registers (sim : CloudCompileSimulator) :
    Nat → Option Int :=
  (List.range 16).foldl (fun status reg_num =>
    if sim.dut.hasStatus reg_num then
      Function.update status reg_num (some ((sim.dut.statusRead reg_num).getD 0))
    else status) (fun _ => none)

/-- State of `SimulationBackend` restricted to what
`set_control_register` touches. `simulators slot = some sim` models a slot
whose simulator is a CloudCompile passthrough (the only registered simulator
with a `set_control_register` attribute); `none` covers both an absent
simulator and one without that attribute. -/
structure SimulationBackend where
  network_cr : NetworkCRInterface
  simulators : Int → Option CloudCompileSimulator

/-- `SimulationBackend.set_control_register`: delegate to the network
interface (delay plus masked store), then apply the raw value directly to
the slot's passthrough simulator when it has one. -/
def SimulationBackend.set_control_register (b : SimulationBackend) (slot register : Int)
    (value : Nat) (delay_ms : Option Nat) : Except String SimulationBackend := do
  let ncr ← b.network_cr.set_control_register slot register value delay_ms
  match b.simulators slot with
  | some sim => do
      let sim' ← sim.set_control_register register value
      Except.ok { network_cr := ncr
                  simulators := Function.update b.simulators slot (some sim') }
  | none => Except.ok { b with network_cr := ncr }

/-- `SimulationBackend.get_control_register` delegates to the network. -/
def SimulationBackend.get_control_register (b : SimulationBackend) (slot register : Int) :
    Except String Nat :=
  b.network_cr.get_control_register slot register

/-- The capture loop of `OscilloscopeSimulator.run` for one channel bound to
a signal holding the constant value `V`, with effective sample period `e`
(= sample_period_ns * decimation) and duration `d` ns. `t` is the current
simulation time offset from `start_time` and `elapsed` the value of
`elapsed_ns` tested by the `while`: the loop samples at time `t`, awaits
`Timer(e)`, and only then sets `elapsed` to the pre-await `t`. The guard's
extra conjuncts `0 < e ∧ elapsed ≤ t` hold on every call reached from
`run`'s entry (`t = elapsed = 0`, positive period) and are carried only for
termination; under them the guard is exactly the source's
`elapsed_ns < duration_ns`. -/
def oscRunGo (V : Int) (e d t elapsed : Nat) : List (Nat × Int) :=
  if h : 0 < e ∧ elapsed ≤ t ∧ elapsed < d then
    (t, V) :: oscRunGo V e d (t + e) t
  else
    []
termination_by (d + e - elapsed) + (d + 2 * e - t)
decreasing_by omega

/-- `OscilloscopeSimulator.run duration_ns` on a single channel reading the
constant `V`: enter the while loop with `elapsed_ns = 0` at `start_time`. -/
def oscRun (V : Int) (e d : Nat) : List (Nat × Int) :=
  oscRunGo V e d 0 0

/-- Python `max(v for _, v in lst)` over a non-empty list of samples (the
empty case is unreachable behind the callers' guards). -/
def pyMaxValues : List (Nat × Int) → Int
  | [] => 0
  | p :: ps => ps.foldl (fun m q => max m q.2) p.2

/-- The `expected` value computed inside `verify_incrementing` for the pair
at `idx`, `idx + 1`: the counter width is taken from the largest value in
`data[:idx+2]` — the whole capture so far, not just the requested window —
and Python's `(current_val + 1) & ((1 << bits) - 1)` is `(current_val + 1)`
mod `2 ^ bits` (Python `&` of a possibly negative int with an all-ones mask
is its non-negative remainder, as is Lean's `Int.emod` by a positive
modulus); `bit_length` of a positive `n` is `Nat.log2 n + 1`. -/
def incExpected (data : List (Nat × Int)) (idx : Nat) : Int :=
  let current_val := (data.getD idx (0, 0)).2
  let max_val := pyMaxValues (data.take (idx + 2))
  if 0 < max_val then
    let counter_bits := Nat.log2 max_val.toNat + 1
    (current_val + 1) % ((2 : Int) ^ counter_bits)
  else
    current_val + 1

/-- The `for i in range(count - 1)` loop of `verify_incrementing`, with `n`
iterations remaining and `idx = start_sample + i`: out-of-range pair or
mismatch returns False immediately. -/
def verifyIncLoop (data : List (Nat × Int)) : Nat → Nat → Bool
  | _, 0 => true
  | idx, n + 1 =>
    if data.length ≤ idx + 1 then false
    else if (data.getD (idx + 1) (0, 0)).2 ≠ incExpected data idx then false
    else verifyIncLoop data (idx + 1) n

/-- `OscilloscopeSimulator.verify_incrementing`: `channelData` is
`self.data.get(channel)` (`none` when the channel was never captured, which
returns False); otherwise run the pair loop from `start_sample`. -/
def verify_incrementing (channelData : Option (List (Nat × Int)))
    (start_sample count : Nat) : Bool :=
  match channelData with
  | none => false
  | some data => verifyIncLoop data start_sample (count - 1)

/-- The expected value as the claim words it: the counter width taken from
the largest value seen so far **inside the requested window** only
(`data[start : idx+2]`), ignoring samples before `start`. This is the
claim-side definition, to be compared with the source's `incExpected`. -/
def windowExpected (data : List (Nat × Int)) (start idx : Nat) : Int :=
  let current_val := (data.getD idx (0, 0)).2
  let max_val := pyMaxValues ((data.take (idx + 2)).drop start)
  if 0 < max_val then
    (current_val + 1) % ((2 : Int) ^ (Nat.log2 max_val.toNat + 1))
  else
    current_val + 1

/-- Functional characterisation of the `verify_incrementing` pair loop:
every pair index of the window is in range and each successor sample equals
the `incExpected` value (whose modulus is derived from the whole capture up
to that pair). -/
def IncrementingWithin (data : List (Nat × Int)) (start count : Nat) : Prop :=
  ∀ i : Nat, i < count - 1 →
    start + i + 1 < data.length ∧
    (data.getD (start + i + 1) (0, 0)).2 = incExpected data (start + i)

/-! ## Concrete states used by witnesses and counterexamples -/

/-- A three-sample capture: an early large value 3 before the window,
then the pair 1, 0 inside the window starting at index 1. -/
def cexCapture : List (Nat × Int) := [(0, 3), (1, 1), (2, 0)]

/-- A freshly added bank for slot 1. -/
def sampleBank : ControlRegisterBank := ControlRegisterBank.init 1

/-- A network interface with exactly slot 1 configured, all registers 0. -/
def sampleIface : NetworkCRInterface :=
  { NetworkCRInterface.init with
    slots := Function.update NetworkCRInterface.init.slots 1 (some sampleBank) }

/-- A bank whose CR0 holds `0xE0000000` (ready, user-enable and clock-enable
set, everything else clear). -/
def forgeBank : ControlRegisterBank :=
  { slot := 1
    registers := Function.update (fun _ => 0) 0 0xE0000000
    access_log := [] }

/-- A network interface with slot 1 holding `forgeBank`. -/
def forgeIface : NetworkCRInterface :=
  { NetworkCRInterface.init with
    slots := Function.update NetworkCRInterface.init.slots 1 (some forgeBank) }

/-- The bank state produced by a successful in-range
`ControlRegisterBank.set_register` (derived form, used to state
post-states explicitly). -/
def ControlRegisterBank.afterSet (bank : ControlRegisterBank) (reg : Int)
    (value : Nat) : ControlRegisterBank :=
  { bank with
    registers := Function.update bank.registers reg (value &&& 0xFFFFFFFF),
    access_log := bank.access_log ++
      [{ register := reg, old_value := bank.registers reg, new_value := value }] }

/-- The simulator state produced by a successful in-range
`CloudCompileSimulator.set_control_register` on a DUT exposing the port
(derived form, used to state post-states explicitly). -/
def CloudCompileSimulator.afterSet (sim : CloudCompileSimulator) (register : Int)
    (value : Nat) : CloudCompileSimulator :=
  { sim with
    dut := { sim.dut with control := Function.update sim.dut.control register value },
    applied_crs := Function.update sim.applied_crs register (some value),
    control_registers := Function.update sim.control_registers register (some value),
    forge_state :=
      if register = 0 then
        CloudCompileSimulator.update_forge_state sim.forge_state value
      else sim.forge_state }

/-- The interface state produced by a successful
`NetworkCRInterface.set_control_register` on a configured slot holding
`bank` (derived form). -/
def NetworkCRInterface.afterSet (σ : NetworkCRInterface) (slot : Int)
    (bank : ControlRegisterBank) (register : Int) (value : Nat) : NetworkCRInterface :=
  { σ with
    total_network_ops := σ.total_network_ops + 1,
    network_busy := false,
    slots := Function.update σ.slots slot (some (bank.afterSet register value)) }

/-- The backend state produced by a successful
`SimulationBackend.set_control_register` with a CloudCompile simulator whose
DUT exposes the port (derived form). -/
def SimulationBackend.afterSet (b : SimulationBackend) (slot : Int)
    (bank : ControlRegisterBank) (sim : CloudCompileSimulator) (register : Int)
    (value : Nat) : SimulationBackend :=
  { network_cr := b.network_cr.afterSet slot bank register value,
    simulators := Function.update b.simulators slot (some (sim.afterSet register value)) }

/-- A DUT exposing no `Control<i>` and no `Status<i>` ports at all. -/
def noPortDut : Dut :=
  { hasControl := fun _ => false
    control := fun _ => 0
    hasStatus := fun _ => false
    statusRead := fun _ => none }

/-- A passthrough simulator over `noPortDut` with empty register dicts. -/
def noPortSim : CloudCompileSimulator :=
  { dut := noPortDut
    control_registers := fun _ => none
    applied_crs := fun _ => none
    forge_state :=
      { forge_ready := false, user_enable := false
        clk_enable := false, loader_done := true } }

/-- A backend pairing `sampleIface` (slot 1, all registers 0) with the
portless passthrough simulator in slot 1. -/
def noPortBackend : SimulationBackend :=
  { network_cr := sampleIface
    simulators := Function.update (fun _ => none) 1 (some noPortSim) }

/-- A passthrough simulator whose DUT exposes only `Status0`, and reading
`Status0` raises (undefined value). -/
def failingStatusSim : CloudCompileSimulator :=
  { noPortSim with
    dut := { noPortDut with hasStatus := fun n => n == 0, statusRead := fun _ => none } }

/-- A DUT exposing every `Control<i>` port (no status ports). -/
def fullPortDut : Dut :=
  { noPortDut with hasControl := fun _ => true }

/-- A passthrough simulator over `fullPortDut` with empty register dicts. -/
def fullPortSim : CloudCompileSimulator :=
  { noPortSim with dut := fullPortDut }

/-- A backend pairing `sampleIface` with the all-ports passthrough
simulator in slot 1. -/
def fullPortBackend : SimulationBackend :=
  { network_cr := sampleIface
    simulators := Function.update (fun _ => none) 1 (some fullPortSim) }

/-- Network-side view of slot 1, register 3 of a backend state. -/
def obsNet13 (b : SimulationBackend) : Except String Nat :=
  b.network_cr.get_control_register 1 3

/-- Passthrough-model view of register 3 in slot 1 of a backend state: the
value `get_control_register(3)` reports and the `applied_crs` entry. -/
def obsSim13 (b : SimulationBackend) : Option (Nat × Option Nat) :=
  (b.simulators 1).map fun sim => (sim.get_control_register 3, sim.applied_crs 3)

/-! ## Helper lemmas -/

/-- Masking with `0xFFFFFFFF` is reduction mod `2 ^ 32`. -/
lemma mask32_eq_mod (v : Nat) : v &&& 0xFFFFFFFF = v % 2 ^ 32 := by
  have h := Nat.and_pow_two_sub_one_eq_mod v 32
  norm_num at h
  exact h

/-! ## Claims -/

/-- C1: once `set_control_register(S, i, v, delay)` has completed on a
configured slot `S` with `i ∈ [0,15]` and a 32-bit `v`, a subsequent
`get_control_register(S, i)` returns exactly `v` — the prior value is no
longer observable — and the update is a single atomic point write: every
other register of `S` and every other slot are untouched, so no
intermediate or torn value is ever readable. -/
theorem c1_set_then_get_register (σ : NetworkCRInterface) (S i : Int) (v : Nat)
    (d : Option Nat) (bank : ControlRegisterBank) (hS : σ.slots S = some bank)
    (h0 : 0 ≤ i) (h15 : i ≤ 15) (hv : v < 2 ^ 32) :
    ∃ σ' : NetworkCRInterface,
      σ.set_control_register S i v d = Except.ok σ' ∧
      σ'.get_control_register S i = Except.ok v ∧
      (∀ j : Int, j ≠ i → σ'.get_control_register S j = σ.get_control_register S j) ∧
      (∀ S' : Int, S' ≠ S → σ'.slots S' = σ.slots S') := by
  have hguard : ¬(i < 0 ∨ i > 15) := by omega
  refine ⟨{ σ with
      total_network_ops := σ.total_network_ops + 1
      network_busy := false
      slots := Function.update σ.slots S (some { bank with
        registers := Function.update bank.registers i (v &&& 0xFFFFFFFF)
        access_log := bank.access_log ++
          [{ register := i, old_value := bank.registers i, new_value := v }] }) },
    ?_, ?_, ?_, ?_⟩
  · simp only [NetworkCRInterface.set_control_register, hS,
      ControlRegisterBank.set_register, if_neg hguard]
    rfl
  · have hv' : v < 4294967296 := by simpa using hv
    simp [NetworkCRInterface.get_control_register, Function.update_same,
      ControlRegisterBank.get_register, hguard, mask32_eq_mod,
      Nat.mod_eq_of_lt hv']
  · intro j hj
    simp [NetworkCRInterface.get_control_register, Function.update_same, hS,
      ControlRegisterBank.get_register, Function.update_noteq hj]
  · intro S' hS'
    simp [Function.update_noteq hS']

/-- C1 witness: on the concrete interface with slot 1 configured, writing 5
to register 2 succeeds and reads back as 5. -/
theorem c1_witness :
    (0 : Int) ≤ 2 ∧ (2 : Int) ≤ 15 ∧ 5 < 2 ^ 32 ∧
    ∃ σ' : NetworkCRInterface,
      sampleIface.set_control_register 1 2 5 none = Except.ok σ' ∧
      σ'.get_control_register 1 2 = Except.ok 5 := by
  refine ⟨by decide, by decide, by norm_num, ?_⟩
  obtain ⟨σ', h1, h2, -, -⟩ :=
    c1_set_then_get_register sampleIface 1 2 5 none sampleBank
      (by simp [sampleIface]) (by decide) (by decide) (by norm_num)
  exact ⟨σ', h1, h2⟩

/-- C4: for a configured slot, `get_forge_status` reports `global_enable`
exactly when bits 31 (ready), 30 (user-enable) and 29 (clock-enable) of
register 0 are all set; at `0xE0000000` it is true and clearing any one of
the three bits makes it false. The decoded status record carries no
loader-done field at all, so the loader-done condition plays no part. -/
theorem c4_forge_status_global_enable (σ : NetworkCRInterface) (S : Int)
    (bank : ControlRegisterBank) (hS : σ.slots S = some bank) :
    ((σ.get_forge_status S).global_enable =
      ((bank.registers 0).testBit 31 && (bank.registers 0).testBit 30 &&
        (bank.registers 0).testBit 29)) ∧
    (bank.registers 0 = 0xE0000000 → (σ.get_forge_status S).global_enable = true) ∧
    (bank.registers 0 = 0x60000000 → (σ.get_forge_status S).global_enable = false) ∧
    (bank.registers 0 = 0xA0000000 → (σ.get_forge_status S).global_enable = false) ∧
    (bank.registers 0 = 0xC0000000 → (σ.get_forge_status S).global_enable = false) := by
  have hmain : (σ.get_forge_status S).global_enable =
      ((bank.registers 0).testBit 31 && (bank.registers 0).testBit 30 &&
        (bank.registers 0).testBit 29) := by
    simp [NetworkCRInterface.get_forge_status, hS,
      ControlRegisterBank.get_forge_control_bits, Bool.and_assoc]
  refine ⟨hmain, ?_, ?_, ?_, ?_⟩ <;> intro h <;> rw [hmain, h] <;> decide

/-- C4 witness: with CR0 = `0xE0000000` in slot 1, `global_enable` is true. -/
theorem c4_witness : (forgeIface.get_forge_status 1).global_enable = true := by
  obtain ⟨-, h, -, -, -⟩ :=
    c4_forge_status_global_enable forgeIface 1 forgeBank (by simp [forgeIface])
  exact h (by simp [forgeBank])

/-- C5: `add_slot(S, {0: X})` followed by `get_register(S, 0)` returns exactly
`X & 0xFFFFFFFF` for any 64-bit `X`, and every register never written reads
as 0. -/
theorem c5_add_slot_roundtrip (σ : NetworkCRInterface) (S : Int) (X : Nat)
    (hX : X < 2 ^ 64) :
    ∃ σ' : NetworkCRInterface,
      σ.add_slot S [(0, X)] = Except.ok σ' ∧
      σ'.get_control_register S 0 = Except.ok (X &&& 0xFFFFFFFF) ∧
      (∀ i : Int, 1 ≤ i → i ≤ 15 → σ'.get_control_register S i = Except.ok 0) := by
  apply Exists.intro { σ with slots := (Function.update σ.slots S
    (some ⟨S, Function.update (fun _ => (0 : Nat)) 0 (X &&& 0xFFFFFFFF), [⟨0, 0, X⟩]⟩)) }
  refine ⟨?_, ?_, ?_⟩
  · simp only [NetworkCRInterface.add_slot, List.foldlM, Function.update_same,
      ControlRegisterBank.init, ControlRegisterBank.set_register]
    norm_num [Function.update_idem]
    rfl
  · simp [NetworkCRInterface.get_control_register, Function.update_same,
      ControlRegisterBank.get_register]
  · intro i h1 h15
    have hguard : ¬(i < 0 ∨ i > 15) := by omega
    have hne : i ≠ 0 := by omega
    simp [NetworkCRInterface.get_control_register, Function.update_same,
      ControlRegisterBank.get_register, hguard, Function.update_noteq hne]

/-- C5 witness: adding slot 2 with initial value `2^32 + 7` for register 0
stores `7`, and register 3 (never written) reads 0. -/
theorem c5_witness :
    2 ^ 32 + 7 < 2 ^ 64 ∧
    (2 ^ 32 + 7) &&& 0xFFFFFFFF = 7 ∧
    ∃ σ' : NetworkCRInterface,
      NetworkCRInterface.init.add_slot 2 [(0, 2 ^ 32 + 7)] = Except.ok σ' ∧
      σ'.get_control_register 2 0 = Except.ok ((2 ^ 32 + 7) &&& 0xFFFFFFFF) ∧
      σ'.get_control_register 2 3 = Except.ok 0 := by
  refine ⟨by norm_num, by decide, ?_⟩
  obtain ⟨σ', h1, h2, h3⟩ :=
    c5_add_slot_roundtrip NetworkCRInterface.init 2 (2 ^ 32 + 7) (by norm_num)
  exact ⟨σ', h1, h2, h3 3 (by decide) (by decide)⟩

/-- C6 counterexample: on the freshly initialised interface no slot is
configured, yet the slot-addressed operations `get_forge_status(1)` and
`get_access_log(1)` do not fail — they silently return an all-false default
status and an empty log, contradicting the claim that a configuration
mistake is always surfaced as an error and never silently recovered. -/
theorem c6_counterexample :
    NetworkCRInterface.init.get_forge_status 1 =
      { forge_ready := false, user_enable := false,
        clk_enable := false, global_enable := false } ∧
    NetworkCRInterface.init.get_access_log 1 = [] :=
  ⟨rfl, rfl⟩

/-- C6 (amended): a register index outside [0,15] makes `set_register`,
`get_register`, `set_control_register` and `get_control_register` fail with
an error surfaced to the caller, and an unknown slot does the same for
`set_control_register` and `get_control_register`; however
`get_forge_status` and `get_access_log` silently recover from an unknown
slot, returning the all-false default status resp. the empty log. -/
theorem c6_range_and_slot_errors (σ : NetworkCRInterface) (bank : ControlRegisterBank)
    (S i : Int) (v : Nat) (d : Option Nat) :
    ((i < 0 ∨ 15 < i) →
      (∃ e, bank.set_register i v = Except.error e) ∧
      (∃ e, bank.get_register i = Except.error e) ∧
      (∃ e, σ.set_control_register S i v d = Except.error e) ∧
      (∃ e, σ.get_control_register S i = Except.error e)) ∧
    (σ.slots S = none →
      (∃ e, σ.set_control_register S i v d = Except.error e) ∧
      (∃ e, σ.get_control_register S i = Except.error e) ∧
      σ.get_forge_status S =
        { forge_ready := false, user_enable := false,
          clk_enable := false, global_enable := false } ∧
      σ.get_access_log S = []) := by
  constructor
  · intro hi
    have hguard : i < 0 ∨ i > 15 := by omega
    refine ⟨⟨"Register out of range (0-15)", ?_⟩,
      ⟨"Register out of range (0-15)", ?_⟩, ?_, ?_⟩
    · simp [ControlRegisterBank.set_register, hguard]
    · simp [ControlRegisterBank.get_register, hguard]
    · cases hS : σ.slots S with
      | none =>
          exact ⟨"Slot not configured",
            by simp [NetworkCRInterface.set_control_register, hS]⟩
      | some b =>
          refine ⟨"Register out of range (0-15)", ?_⟩
          simp only [NetworkCRInterface.set_control_register, hS,
            ControlRegisterBank.set_register, if_pos hguard]
          rfl
    · cases hS : σ.slots S with
      | none =>
          exact ⟨"Slot not configured",
            by simp [NetworkCRInterface.get_control_register, hS]⟩
      | some b =>
          exact ⟨"Register out of range (0-15)",
            by simp [NetworkCRInterface.get_control_register, hS,
              ControlRegisterBank.get_register, hguard]⟩
  · intro hS
    refine ⟨⟨"Slot not configured", ?_⟩, ⟨"Slot not configured", ?_⟩, ?_, ?_⟩
    · simp [NetworkCRInterface.set_control_register, hS]
    · simp [NetworkCRInterface.get_control_register, hS]
    · simp [NetworkCRInterface.get_forge_status, hS]
    · simp [NetworkCRInterface.get_access_log, hS]

/-- C6 witness: register index 16 fails on the fresh bank, and slot 1 of the
fresh interface is unknown, so set/get fail there while `get_forge_status`
and `get_access_log` return the defaults. -/
theorem c6_witness :
    ((16 : Int) < 0 ∨ (15 : Int) < 16) ∧
    NetworkCRInterface.init.slots 1 = none ∧
    (∃ e, sampleBank.set_register 16 0 = Except.error e) ∧
    (∃ e, NetworkCRInterface.init.get_control_register 1 0 = Except.error e) ∧
    NetworkCRInterface.init.get_access_log 1 = [] := by
  obtain ⟨h1, h2⟩ := c6_range_and_slot_errors NetworkCRInterface.init sampleBank 1 16 0 none
  obtain ⟨hset, -, -, -⟩ := h1 (by decide)
  refine ⟨by decide, rfl, hset, ?_, ?_⟩
  · obtain ⟨-, hget, -, -⟩ :=
      (c6_range_and_slot_errors NetworkCRInterface.init sampleBank 1 0 0 none).2 rfl
    exact hget
  · exact ((c6_range_and_slot_errors NetworkCRInterface.init sampleBank 1 0 0 none).2 rfl).2.2.2

/-- C10: every successful `set_register(i, v)` appends exactly one log entry
whose `new_value` is the caller's raw argument `v` (recorded before the
32-bit masking), while the register itself stores `v & 0xFFFFFFFF`; hence
for `v ≥ 2^32` the logged value differs from the stored one. -/
theorem c10_set_register_raw_log (bank : ControlRegisterBank) (i : Int) (v : Nat)
    (h0 : 0 ≤ i) (h15 : i ≤ 15) :
    ∃ bank' : ControlRegisterBank,
      bank.set_register i v = Except.ok bank' ∧
      bank'.access_log = bank.access_log ++
        [{ register := i, old_value := bank.registers i, new_value := v }] ∧
      bank'.registers i = v &&& 0xFFFFFFFF ∧
      (2 ^ 32 ≤ v → bank'.registers i ≠ v) := by
  have hguard : ¬(i < 0 ∨ i > 15) := by omega
  apply Exists.intro { bank with
    registers := (Function.update bank.registers i (v &&& 0xFFFFFFFF)),
    access_log := (bank.access_log ++
      [{ register := i, old_value := bank.registers i, new_value := v }]) }
  refine ⟨?_, rfl, ?_, ?_⟩
  · simp [ControlRegisterBank.set_register, hguard]
  · simp [Function.update_same]
  · intro hv
    simp only [Function.update_same, mask32_eq_mod]
    have : v % 2 ^ 32 < 2 ^ 32 := Nat.mod_lt _ (by norm_num)
    omega

/-- C10 witness: writing `2^32 + 9` to register 3 of the fresh bank logs the
raw value while storing the masked one. -/
theorem c10_witness :
    (0 : Int) ≤ 3 ∧ (3 : Int) ≤ 15 ∧ 2 ^ 32 ≤ 2 ^ 32 + 9 ∧
    ∃ bank' : ControlRegisterBank,
      sampleBank.set_register 3 (2 ^ 32 + 9) = Except.ok bank' ∧
      bank'.access_log = sampleBank.access_log ++
        [{ register := 3, old_value := sampleBank.registers 3,
           new_value := 2 ^ 32 + 9 }] ∧
      bank'.registers 3 ≠ 2 ^ 32 + 9 := by
  refine ⟨by decide, by decide, by norm_num, ?_⟩
  obtain ⟨bank', h1, h2, -, h4⟩ :=
    c10_set_register_raw_log sampleBank 3 (2 ^ 32 + 9) (by decide) (by decide)
  exact ⟨bank', h1, h2, h4 (by norm_num)⟩

/-- C9: when the DUT handle does not expose a `Control<i>` signal for an
in-range index, the passthrough model's `set_control_register(i, v)`
returns without error and the entire simulator state — `applied_crs`,
`control_registers`, the DUT ports, and the FORGE handshake flags even for
`i = 0` — is exactly as before the call. -/
theorem c9_missing_port_is_noop (sim : CloudCompileSimulator) (i : Int) (v : Nat)
    (h0 : 0 ≤ i) (h15 : i ≤ 15) (hport : sim.dut.hasControl i = false) :
    sim.set_control_register i v = Except.ok sim := by
  have hguard : ¬(i < 0 ∨ i > 15) := by omega
  simp [CloudCompileSimulator.set_control_register, hguard, hport]

/-- C9 witness: writing the handshake value `0xE0000000` to register 0 of
the portless simulator succeeds and returns the state unchanged. -/
theorem c9_witness :
    (0 : Int) ≤ 0 ∧ (0 : Int) ≤ 15 ∧ noPortSim.dut.hasControl 0 = false ∧
    noPortSim.set_control_register 0 0xE0000000 = Except.ok noPortSim := by
  refine ⟨by decide, by decide, rfl, ?_⟩
  exact c9_missing_port_is_noop noPortSim 0 0xE0000000 (by decide) (by decide) rfl

/-- How the `get_status_registers` fold reads back: a register is present in
the built dict exactly when it was visited and the DUT exposes it, and its
recorded value substitutes 0 for a failed read. -/
lemma status_foldl_lookup (sim : CloudCompileSimulator) (l : List Nat)
    (acc : Nat → Option Int) (r : Nat) :
    (l.foldl (fun status reg_num =>
      if sim.dut.hasStatus reg_num then
        Function.update status reg_num (some ((sim.dut.statusRead reg_num).getD 0))
      else status) acc) r =
    if r ∈ l ∧ sim.dut.hasStatus r then
      some ((sim.dut.statusRead r).getD 0)
    else acc r := by
  induction l generalizing acc with
  | nil => simp
  | cons a l ih =>
      rw [List.foldl_cons, ih]
      by_cases hmem : r ∈ l ∧ sim.dut.hasStatus r = true
      · simp [hmem, List.mem_cons, hmem.1, hmem.2]
      · rw [if_neg hmem]
        by_cases har : r = a
        · subst har
          by_cases hs : sim.dut.hasStatus r = true
          · simp [hs, Function.update_same]
          · simp only [Bool.not_eq_true] at hs
            simp [hs]
        · have hmem' : ¬(r ∈ a :: l ∧ sim.dut.hasStatus r = true) := by
            intro hc
            rcases List.mem_cons.1 hc.1 with h1 | h1
            · exact har h1
            · exact hmem ⟨h1, hc.2⟩
          rw [if_neg hmem']
          by_cases hs : sim.dut.hasStatus a = true
          · simp [hs, Function.update_noteq har]
          · simp only [Bool.not_eq_true] at hs
            simp [hs]

/-- C7 counterexample: on a DUT exposing no status registers at all, the
mapping returned by `get_status_registers()` has no entry for register 0 —
the inaccessible register is omitted rather than reported with value 0, so
the mapping does not cover all 16 indices. -/
theorem c7_counterexample :
    noPortSim.get_status_registers 0 = none ∧
    noPortSim.get_status_registers 0 ≠ some 0 := by
  refine ⟨rfl, by decide⟩

/-- C7 (amended): `get_status_registers()` visits all 16 status indices and
never propagates an error; a register the DUT exposes appears in the
returned mapping, with value 0 substituted when its read fails, while a
register the DUT does not expose (or an index beyond 15) is simply absent
from the mapping. -/
theorem c7_status_registers_best_effort (sim : CloudCompileSimulator) (r : Nat) :
    (r ≤ 15 → sim.dut.hasStatus r = true →
      sim.get_status_registers r = some ((sim.dut.statusRead r).getD 0)) ∧
    (sim.dut.hasStatus r = false → sim.get_status_registers r = none) ∧
    (15 < r → sim.get_status_registers r = none) := by
  refine ⟨?_, ?_, ?_⟩
  · intro hr hs
    rw [CloudCompileSimulator.get_status_registers, status_foldl_lookup]
    simp [List.mem_range, hs]
    omega
  · intro hs
    rw [CloudCompileSimulator.get_status_registers, status_foldl_lookup]
    simp [hs]
  · intro hr
    rw [CloudCompileSimulator.get_status_registers, status_foldl_lookup]
    have : ¬(r ∈ List.range 16) := by simp [List.mem_range]; omega
    simp [this]

/-- C7 witness: a DUT exposing `Status0` whose read raises reports register
0 as 0; the unexposed register 1 is absent; index 16 is absent. -/
theorem c7_witness :
    failingStatusSim.get_status_registers 0 = some 0 ∧
    failingStatusSim.get_status_registers 1 = none ∧
    failingStatusSim.get_status_registers 16 = none := by
  obtain ⟨h0, -, -⟩ := c7_status_registers_best_effort failingStatusSim 0
  obtain ⟨-, h1, -⟩ := c7_status_registers_best_effort failingStatusSim 1
  obtain ⟨-, -, h16⟩ := c7_status_registers_best_effort failingStatusSim 16
  exact ⟨h0 (by decide) rfl, h1 rfl, h16 (by decide)⟩

/-- C2 counterexample: slot 1's passthrough DUT exposes no `Control3` port.
After the backend's `set_control_register(1, 3, 5)` completes, the network
interface reads register 3 back as 5, but the passthrough model still
reports 0 for it and has applied nothing to the device (`applied_crs` has
no entry) — the network-visible and device-side register state disagree,
refuting the claim for this slot, index and value. -/
theorem c2_counterexample :
    (noPortBackend.set_control_register 1 3 5 none).toOption.map obsNet13 =
      some (Except.ok 5) ∧
    (noPortBackend.set_control_register 1 3 5 none).toOption.map obsSim13 =
      some (some (0, none)) ∧
    (5 : Nat) ≠ 0 := by
  refine ⟨rfl, rfl, by decide⟩

/-- C2 (amended): provided the passthrough DUT exposes the `Control<i>` port
and `v` is a 32-bit value, the backend's `set_control_register(S, i, v, d)`
leaves the network-visible register equal to `v` and equal to the value the
passthrough model tracks (`control_registers`), has recorded as applied
(`applied_crs`), and drives on the device port. When the port is absent the
model is untouched while the network still updates (see the
counterexample), and for `v ≥ 2^32` only the network side masks. -/
theorem c2_backend_network_device_consistency (b : SimulationBackend) (S i : Int)
    (v : Nat) (d : Option Nat) (bank : ControlRegisterBank)
    (sim : CloudCompileSimulator) (hb : b.network_cr.slots S = some bank)
    (hsim : b.simulators S = some sim) (h0 : 0 ≤ i) (h15 : i ≤ 15)
    (hv : v < 2 ^ 32) (hport : sim.dut.hasControl i = true) :
    ∃ b' : SimulationBackend, ∃ sim' : CloudCompileSimulator,
      b.set_control_register S i v d = Except.ok b' ∧
      b'.simulators S = some sim' ∧
      b'.network_cr.get_control_register S i = Except.ok v ∧
      sim'.get_control_register i = v ∧
      sim'.applied_crs i = some v ∧
      sim'.dut.control i = v := by
  have hguard : ¬(i < 0 ∨ i > 15) := by omega
  have hv' : v < 4294967296 := by simpa using hv
  apply Exists.intro (b.afterSet S bank sim i v)
  apply Exists.intro (sim.afterSet i v)
  refine ⟨?_, ?_, ?_, ?_, ?_, ?_⟩
  · simp only [SimulationBackend.set_control_register,
      NetworkCRInterface.set_control_register, hb, hsim,
      ControlRegisterBank.set_register, if_neg hguard,
      CloudCompileSimulator.set_control_register, hport, if_true,
      SimulationBackend.afterSet, NetworkCRInterface.afterSet,
      ControlRegisterBank.afterSet, CloudCompileSimulator.afterSet]
    rfl
  · simp [SimulationBackend.afterSet, Function.update_same]
  · simp [SimulationBackend.afterSet, NetworkCRInterface.afterSet,
      NetworkCRInterface.get_control_register, Function.update_same,
      ControlRegisterBank.afterSet, ControlRegisterBank.get_register,
      hguard, mask32_eq_mod, Nat.mod_eq_of_lt hv']
  · simp [CloudCompileSimulator.get_control_register,
      CloudCompileSimulator.afterSet, Function.update_same]
  · simp [CloudCompileSimulator.afterSet, Function.update_same]
  · simp [CloudCompileSimulator.afterSet, Function.update_same]

/-- C2 witness: with every `Control<i>` port present, writing 5 to slot 1
register 3 leaves network and model agreeing on 5. -/
theorem c2_witness :
    (0 : Int) ≤ 3 ∧ (3 : Int) ≤ 15 ∧ 5 < 2 ^ 32 ∧
    fullPortSim.dut.hasControl 3 = true ∧
    ∃ b' : SimulationBackend, ∃ sim' : CloudCompileSimulator,
      fullPortBackend.set_control_register 1 3 5 none = Except.ok b' ∧
      b'.simulators 1 = some sim' ∧
      b'.network_cr.get_control_register 1 3 = Except.ok 5 ∧
      sim'.get_control_register 3 = 5 ∧
      sim'.applied_crs 3 = some 5 ∧
      sim'.dut.control 3 = 5 := by
  refine ⟨by decide, by decide, by norm_num, rfl, ?_⟩
  exact c2_backend_network_device_consistency fullPortBackend 1 3 5 none
    sampleBank fullPortSim (by simp [fullPortBackend, sampleIface])
    (by simp [fullPortBackend]) (by decide) (by decide) (by norm_num) rfl

/-- Every sample the capture loop records carries the constant signal
value `V`. -/
lemma oscRunGo_val (V : Int) (e d : Nat) :
    ∀ n t elapsed, (d + e - elapsed) + (d + 2 * e - t) ≤ n →
      ∀ p ∈ oscRunGo V e d t elapsed, p.2 = V := by
  intro n
  induction n with
  | zero =>
      intro t elapsed hn p hp
      rw [oscRunGo] at hp
      split at hp
      · next hcond =>
          obtain ⟨he, hle, hlt⟩ := hcond
          omega
      · simp at hp
  | succ n ih =>
      intro t elapsed hn p hp
      rw [oscRunGo] at hp
      split at hp
      · next hcond =>
          obtain ⟨he, hle, hlt⟩ := hcond
          rcases List.mem_cons.1 hp with h1 | h1
          · rw [h1]
          · exact ih (t + e) t (by omega) p h1
      · simp at hp

/-- Steady-state sample count: once one iteration has run, the loop is at
`t = x + e` with `elapsed = x`, and captures `⌈(d - x) / e⌉` more samples. -/
lemma oscRunGo_len (V : Int) (e d : Nat) (he : 0 < e) :
    ∀ n x, d - x ≤ n → (oscRunGo V e d (x + e) x).length = (d - x + e - 1) / e := by
  intro n
  induction n with
  | zero =>
      intro x hn
      rw [oscRunGo]
      rw [dif_neg (by omega)]
      have hx : d - x = 0 := by omega
      rw [hx, Nat.zero_add, List.length_nil]
      exact (Nat.div_eq_of_lt (by omega)).symm
  | succ n ih =>
      intro x hn
      by_cases hx : x < d
      · rw [oscRunGo, dif_pos ⟨he, by omega, hx⟩, List.length_cons]
        have harg : oscRunGo V e d (x + e + e) (x + e) =
            oscRunGo V e d ((x + e) + e) (x + e) := by ring_nf
        rw [harg, ih (x + e) (by omega)]
        have ha : 1 ≤ d - x := by omega
        -- both sides are ⌈(d - x)/e⌉ written with truncated subtraction
        rcases Nat.le_total e (d - x) with hcase | hcase
        · rw [(by omega : d - (x + e) + e - 1 = d - x - 1),
            (by omega : d - x + e - 1 = (d - x - 1) + e),
            Nat.add_div_right _ he]
        · rw [(by omega : d - (x + e) + e - 1 = e - 1),
            (by omega : d - x + e - 1 = (d - x - 1) + e),
            Nat.add_div_right _ he,
            Nat.div_eq_of_lt (by omega), Nat.div_eq_of_lt (by omega)]
      · rw [oscRunGo, dif_neg (by omega)]
        have hx0 : d - x = 0 := by omega
        rw [hx0, Nat.zero_add, List.length_nil]
        exact (Nat.div_eq_of_lt (by omega)).symm

/-- Closed form for the number of captured samples of `run(d)`: one sample
at time 0, then `⌈d / e⌉` more, because the `while` guard tests the elapsed
time recorded before the previous `Timer` await. -/
lemma oscRun_len (V : Int) (e d : Nat) (he : 0 < e) :
    (oscRun V e d).length = if 0 < d then (d + e - 1) / e + 1 else 0 := by
  rw [oscRun, oscRunGo]
  by_cases hd : 0 < d
  · rw [dif_pos ⟨he, le_refl 0, hd⟩, List.length_cons, if_pos hd]
    have h0 : (0 : Nat) + e = 0 + e := rfl
    have := oscRunGo_len V e d he d 0 (by omega)
    simpa using this
  · rw [dif_neg (by omega), if_neg hd]
    rfl

/-- C3 counterexample: with sample period 2 ns, decimation 1 and duration
5 ns, the capture loop records 4 samples, but `floor(5 / (2*1)) = 2`, so
the count is not within ±1 of `floor(D / (P*K))` — the loop samples once at
time 0 and its guard tests the elapsed time recorded one iteration late,
giving `ceil(D/(P*K)) + 1` samples. -/
theorem c3_counterexample :
    (oscRun 0 (2 * 1) 5).length = 4 ∧
    ¬((oscRun 0 (2 * 1) 5).length ≤ 5 / (2 * 1) + 1 ∧
      5 / (2 * 1) ≤ (oscRun 0 (2 * 1) 5).length + 1) := by
  have h := oscRun_len 0 (2 * 1) 5 (by norm_num)
  norm_num at h
  refine ⟨h, ?_⟩
  rw [h]
  norm_num

/-- C3 (amended): for a channel bound to a signal holding the constant value
`V`, sample period `P`, decimation `K ≥ 1` and positive duration `D`, the
run captures exactly `⌈D / (P*K)⌉ + 1` samples (one at time 0, then one per
effective period, the guard lagging one iteration), and every captured
sample's value equals `V`. -/
theorem c3_osc_sampling_determinism (V : Int) (P K D : Nat)
    (hP : 0 < P) (hK : 1 ≤ K) (hD : 0 < D) :
    (oscRun V (P * K) D).length = (D + P * K - 1) / (P * K) + 1 ∧
    ∀ p ∈ oscRun V (P * K) D, p.2 = V := by
  have he : 0 < P * K := Nat.mul_pos hP hK
  constructor
  · rw [oscRun_len V (P * K) D he, if_pos hD]
  · intro p hp
    exact oscRunGo_val V (P * K) D
      ((D + P * K - 0) + (D + 2 * (P * K) - 0)) 0 0 (by omega) p hp

/-- C3 witness: a constant signal of value 7, period 2, decimation 1 and
duration 5 captures `⌈5/2⌉ + 1 = 4` samples, all equal to 7. -/
theorem c3_witness :
    0 < 2 ∧ 1 ≤ 1 ∧ 0 < 5 ∧
    ((oscRun 7 (2 * 1) 5).length = (5 + 2 * 1 - 1) / (2 * 1) + 1 ∧
      ∀ p ∈ oscRun 7 (2 * 1) 5, p.2 = 7) := by
  exact ⟨by decide, by decide, by decide,
    c3_osc_sampling_determinism 7 2 1 5 (by decide) (by decide) (by decide)⟩

/-- The pair loop of `verify_incrementing` succeeds exactly when every pair
of the window is in range and steps by the code's expected value. -/
lemma verifyIncLoop_eq_true_iff (data : List (Nat × Int)) :
    ∀ n idx, verifyIncLoop data idx n = true ↔
      ∀ i : Nat, i < n → idx + i + 1 < data.length ∧
        (data.getD (idx + i + 1) (0, 0)).2 = incExpected data (idx + i) := by
  intro n
  induction n with
  | zero =>
      intro idx
      simp [verifyIncLoop]
  | succ n ih =>
      intro idx
      rw [show verifyIncLoop data idx (n + 1) =
          (if data.length ≤ idx + 1 then false
           else if (data.getD (idx + 1) (0, 0)).2 ≠ incExpected data idx then false
           else verifyIncLoop data (idx + 1) n) from rfl]
      by_cases hlen : data.length ≤ idx + 1
      · rw [if_pos hlen]
        constructor
        · intro hfalse
          simp at hfalse
        · intro hall
          have := (hall 0 (by omega)).1
          omega
      · rw [if_neg hlen]
        by_cases hval : (data.getD (idx + 1) (0, 0)).2 = incExpected data idx
        · rw [if_neg (fun hc => hc hval), ih (idx + 1)]
          constructor
          · intro hall i hi
            cases i with
            | zero =>
                refine ⟨by omega, ?_⟩
                simpa using hval
            | succ j =>
                have h1 : idx + (j + 1) + 1 = idx + 1 + j + 1 := by omega
                have h2 : idx + (j + 1) = idx + 1 + j := by omega
                rw [h1, h2]
                exact hall j (by omega)
          · intro hall i hi
            have h1 : idx + 1 + i + 1 = idx + (i + 1) + 1 := by omega
            have h2 : idx + 1 + i = idx + (i + 1) := by omega
            rw [h1, h2]
            exact hall (i + 1) (by omega)
        · rw [if_pos hval]
          constructor
          · intro hfalse
            simp at hfalse
          · intro hall
            exact (hval (by simpa using (hall 0 (by omega)).2)).elim

/-- C8 counterexample: in the capture `[3, 1, 0]` with window start 1 and
count 2, the only pair inside the window is `1 → 0`, which is `+1` modulo
the 1-bit width implied by the window's own largest value 1, so the claim
says `verify_incrementing` returns true; the code returns false because it
derives the modulus from the whole capture (max 3, two bits, expecting 2). -/
theorem c8_counterexample :
    verify_incrementing (some cexCapture) 1 2 = false ∧
    1 + 0 + 1 < cexCapture.length ∧
    (cexCapture.getD (1 + 0 + 1) (0, 0)).2 = windowExpected cexCapture 1 (1 + 0) ∧
    (cexCapture.getD (1 + 0 + 1) (0, 0)).2 ≠ incExpected cexCapture (1 + 0) := by
  refine ⟨?_, by decide, ?_, ?_⟩
  · simp [verify_incrementing, verifyIncLoop, cexCapture, incExpected,
      pyMaxValues, Nat.log2]
  · simp [windowExpected, cexCapture, pyMaxValues, Nat.log2]
  · simp [incExpected, cexCapture, pyMaxValues, Nat.log2]

/-- C8 (amended): `verify_incrementing(channel, start, count)` returns true
iff the channel was captured and each successive pair of samples in the
requested window is in range and differs by exactly 1 modulo the bit-width
implied by the largest value among **all** captured samples up to and
including the later element of the pair — samples before the window do
influence the modulus (an absent channel returns false). -/
theorem c8_verify_incrementing_charac (data : List (Nat × Int)) (start count : Nat) :
    verify_incrementing none start count = false ∧
    (verify_incrementing (some data) start count = true ↔
      IncrementingWithin data start count) := by
  refine ⟨rfl, ?_⟩
  rw [IncrementingWithin]
  exact verifyIncLoop_eq_true_iff data (count - 1) start
